import Mathlib

/-!
Verification development for the arktos authentication backend.

The embedding models the authentication subsystem: the JWT layer
(src/src/services/jwt.service.ts together with the jsonwebtoken library
semantics), and the authentication flow controller (the auth controller in
src/src/app.ts: register, login, refreshToken, logout, verifyEmail,
changePassword) over an explicit database state of User, RefreshToken,
EmailVerification and LoginLog rows.

Conventions of the embedding:
- time is a natural number of seconds since the epoch; the 7-day, 24-hour,
  15-minute and 1-hour lifetimes of the source become 604800, 86400, 900 and
  3600 seconds (calendar arithmetic of setDate is abstracted to a fixed
  7-day span, which preserves every ordering comparison the code performs);
- a signed JWT string is modelled as the structure of what determines it in
  the jsonwebtoken library: the payload claims, the signing secret, the
  issued-at time and the optional exp claim; two JWT strings are equal
  exactly when these components are equal;
- jwt.verify of the jsonwebtoken library checks the signature (here: the
  secret used), and the exp claim only when one is present (a token signed
  without expiresIn never expires);
- bcryptjs is modelled by an injective one-way encoding: compare succeeds
  exactly on the hashed password;
- the machine-readable error codes of src/src/constants/errorCodes (a file
  whose body is not part of the sources) are modelled as an inductive type
  of distinct opaque constants, which is all the controller code relies on;
- prisma calls become list operations: findUnique is List.find?, create
  appends, update/updateMany map over the rows.
-/

namespace Arktos

/-- Claim set of a signed token. The controller signs only a userId; the
JwtService adds email, role, sessionId and a type discriminator. -/
structure Claims where
  userId : String
  email : Option String := none
  role : Option String := none
  sessionId : Option String := none
  typ : Option String := none
deriving Repr, DecidableEq

/-- Failure modes of the raw jsonwebtoken verify call. -/
inductive JwtError
  | expired
  | badSignature
deriving Repr, DecidableEq

/-- A signed JWT string, represented by the data that determines it. -/
structure Jwt where
  claims : Claims
  secret : String
  iat : Nat
  exp : Option Nat := none
deriving Repr, DecidableEq

/-- Model of jwt.sign: the exp claim is present exactly when an expiresIn
option is passed, and then equals iat plus that lifetime. -/
def jwtSign (c : Claims) (secret : String) (now : Nat) (expiresIn : Option Nat) : Jwt :=
  { claims := c, secret := secret, iat := now, exp := expiresIn.map (fun d => now + d) }

/-- Model of jwt.verify: signature check, then the exp claim when present.
A token without an exp claim is accepted at every time. -/
def jwtVerify (t : Jwt) (secret : String) (now : Nat) : Except JwtError Claims :=
  if t.secret = secret then
    match t.exp with
    | some e => if e ≤ now then Except.error JwtError.expired else Except.ok t.claims
    | none => Except.ok t.claims
  else Except.error JwtError.badSignature

/-- Environment configuration the token code reads: the two signing secrets
and the configurable lifetimes with their documented defaults (15 minutes
and 7 days). -/
structure Env where
  jwtSecret : String
  jwtRefreshSecret : String
  jwtExpiresInSec : Nat := 900
  jwtRefreshExpiresInSec : Nat := 604800
deriving Repr, DecidableEq

/-- Error values thrown by the JwtService verify functions, one constructor
per distinct error message of the source. -/
inductive SvcError
  | accessTokenExpired
  | invalidAccessToken
  | refreshTokenExpired
  | invalidRefreshToken
  | pwResetTokenExpired
  | invalidPwResetToken
  | pwResetVerificationFailed
  | emailVerifyTokenExpired
  | invalidEmailVerifyToken
  | emailVerifyVerificationFailed
deriving Repr, DecidableEq

/-- JwtService.generateAccessToken: full claim set, access secret, access
lifetime. -/
def generateAccessToken (userId email role sessionId : String) (env : Env) (now : Nat) : Jwt :=
  jwtSign
    { userId := userId, email := some email, role := some role,
      sessionId := some sessionId, typ := some "access" }
    env.jwtSecret now (some env.jwtExpiresInSec)

/-- JwtService.generateRefreshToken: full claim set, refresh secret, refresh
lifetime. -/
def generateRefreshToken (userId email role sessionId : String) (env : Env) (now : Nat) : Jwt :=
  jwtSign
    { userId := userId, email := some email, role := some role,
      sessionId := some sessionId, typ := some "refresh" }
    env.jwtRefreshSecret now (some env.jwtRefreshExpiresInSec)

/-- JwtService.verifyAccessToken: raw verify against the access secret and a
translation of the two library errors. The decoded payload is returned as
is: the function performs no check of the type claim. -/
def verifyAccessToken (t : Jwt) (env : Env) (now : Nat) : Except SvcError Claims :=
  match jwtVerify t env.jwtSecret now with
  | Except.ok c => Except.ok c
  | Except.error JwtError.expired => Except.error SvcError.accessTokenExpired
  | Except.error JwtError.badSignature => Except.error SvcError.invalidAccessToken

/-- JwtService.verifyRefreshToken: raw verify against the refresh secret; no
check of the type claim. -/
def verifyRefreshToken (t : Jwt) (env : Env) (now : Nat) : Except SvcError Claims :=
  match jwtVerify t env.jwtRefreshSecret now with
  | Except.ok c => Except.ok c
  | Except.error JwtError.expired => Except.error SvcError.refreshTokenExpired
  | Except.error JwtError.badSignature => Except.error SvcError.invalidRefreshToken

/-- JwtService.generateEmailVerifyToken: userId and email claims, type
email_verify, signed with the access secret, 24-hour lifetime. -/
def generateEmailVerifyToken (userId email : String) (env : Env) (now : Nat) : Jwt :=
  jwtSign { userId := userId, email := some email, typ := some "email_verify" }
    env.jwtSecret now (some 86400)

/-- JwtService.verifyEmailVerifyToken: raw verify against the access secret;
on a decoded payload whose type claim is not email_verify the inner throw is
re-caught and surfaces as the generic verification-failed error. -/
def verifyEmailVerifyToken (t : Jwt) (env : Env) (now : Nat) : Except SvcError Claims :=
  match jwtVerify t env.jwtSecret now with
  | Except.ok c =>
      if c.typ = some "email_verify" then Except.ok c
      else Except.error SvcError.emailVerifyVerificationFailed
  | Except.error JwtError.expired => Except.error SvcError.emailVerifyTokenExpired
  | Except.error JwtError.badSignature => Except.error SvcError.invalidEmailVerifyToken

/-- JwtService.generatePasswordResetToken: userId and email claims, type
password_reset, signed with the access secret, 1-hour lifetime. -/
def generatePasswordResetToken (userId email : String) (env : Env) (now : Nat) : Jwt :=
  jwtSign { userId := userId, email := some email, typ := some "password_reset" }
    env.jwtSecret now (some 3600)

/-- JwtService.verifyPasswordResetToken: raw verify against the access
secret; a decoded payload whose type claim is not password_reset surfaces
as the generic verification-failed error. -/
def verifyPasswordResetToken (t : Jwt) (env : Env) (now : Nat) : Except SvcError Claims :=
  match jwtVerify t env.jwtSecret now with
  | Except.ok c =>
      if c.typ = some "password_reset" then Except.ok c
      else Except.error SvcError.pwResetVerificationFailed
  | Except.error JwtError.expired => Except.error SvcError.pwResetTokenExpired
  | Except.error JwtError.badSignature => Except.error SvcError.invalidPwResetToken

/-! Database rows of the prisma data model, restricted to the fields the
controller reads or writes. -/

/-- A User row. -/
structure UserRow where
  id : String
  email : String
  password : String
  firstName : Option String := none
  lastName : Option String := none
  username : Option String := none
  avatar : Option String := none
  role : String := "USER"
  isActive : Bool := true
  isEmailVerified : Bool := false
  lastLoginAt : Option Nat := none
  createdAt : Nat := 0
deriving Repr, DecidableEq

/-- A RefreshToken row; the token column stores the signed JWT string. -/
structure RefreshTokenRow where
  id : Nat
  userId : String
  token : Jwt
  isRevoked : Bool := false
  expiresAt : Nat
deriving Repr, DecidableEq

/-- Status column of an EmailVerification row. -/
inductive VerifStatus
  | PENDING
  | VERIFIED
deriving Repr, DecidableEq

/-- An EmailVerification row; its token is the random hex string created at
registration. -/
structure EmailVerificationRow where
  id : Nat
  userId : String
  token : String
  email : String
  status : VerifStatus := VerifStatus.PENDING
  expiresAt : Nat
deriving Repr, DecidableEq

/-- A LoginLog row. -/
structure LoginLogRow where
  userId : String
  loginType : String := "EMAIL"
  ipAddress : String
  userAgent : String
  isSuccess : Bool
  failReason : Option String := none
deriving Repr, DecidableEq

/-- The persisted state the controller operates on, plus a counter feeding
the generated ids and random tokens. -/
structure DB where
  users : List UserRow := []
  refreshTokens : List RefreshTokenRow := []
  emailVerifications : List EmailVerificationRow := []
  loginLogs : List LoginLogRow := []
  nextId : Nat := 0
deriving Repr, DecidableEq

/-- Model of bcryptjs hashing: an injective one-way encoding standing for
the salted hash (bcrypt.hash). -/
def bcryptHash (pw : String) : String := "bcrypt$2b$12$" ++ pw

/-- Model of bcrypt.compare: succeeds exactly when the stored hash is the
hash of the presented password. -/
def bcryptCompare (pw stored : String) : Bool := stored == bcryptHash pw

/-- Machine-readable error codes (ERROR_CODES of the constants module):
distinct opaque constants. -/
inductive ErrorCode
  | AUTH_USER_EXISTS
  | AUTH_USERNAME_TAKEN
  | AUTH_INVALID_CREDENTIALS
  | AUTH_ACCOUNT_DEACTIVATED
  | AUTH_TOKEN_EXPIRED
  | AUTH_INVALID_TOKEN
  | AUTH_USER_NOT_FOUND
  | AUTH_INVALID_PASSWORD
  | INTERNAL_ERROR
deriving Repr, DecidableEq

/-- The caller-visible content of an error response: HTTP status, the
message and code of createErrorResponse, and its timestamp. -/
structure ErrResponse where
  status : Nat
  message : String
  code : ErrorCode
  timestamp : Nat
deriving Repr, DecidableEq

/-- The token pair built by the controller. -/
structure TokenPair where
  accessToken : Jwt
  refreshToken : Jwt
deriving Repr, DecidableEq

/-- The generateTokens helper of the auth controller: both tokens are
signed with only the userId claim and, notably, without any expiresIn
option, so neither carries an exp claim. -/
def generateTokens (userId : String) (env : Env) (now : Nat) : TokenPair :=
  { accessToken := jwtSign { userId := userId } env.jwtSecret now none,
    refreshToken := jwtSign { userId := userId } env.jwtRefreshSecret now none }

/-- The logLoginAttempt helper: an unresolved identity (the literal string
unknown) writes nothing; otherwise one LoginLog row is appended. -/
def logLoginAttempt (db : DB) (userId : Option String) (ip ua : String)
    (success : Bool) (failReason : Option String) : DB :=
  match userId with
  | none => db
  | some uid =>
      { db with loginLogs := db.loginLogs ++
          [{ userId := uid, ipAddress := ip, userAgent := ua,
             isSuccess := success, failReason := failReason }] }

/-- Model of the toLowerCase normalization: lower-case every character.
This is String.toLower written by structural recursion over the character
list, so that concrete instances evaluate. -/
def toLowerStr (s : String) : String := String.mk (s.data.map Char.toLower)

/-- User lookup by normalized email (findUnique on email.toLowerCase). -/
def findUserByEmail (db : DB) (email : String) : Option UserRow :=
  db.users.find? (fun u => u.email == toLowerStr email)

/-- Generated user id (the cuid prisma assigns), derived from the counter. -/
def genUserId (n : Nat) : String := "user_" ++ toString n

/-- Generated email-verification token (crypto.randomBytes hex), derived
from the counter. -/
def genVerifToken (n : Nat) : String := "vtok_" ++ toString n

/-- Public projection returned by register. -/
structure RegisteredUser where
  id : String
  email : String
  firstName : Option String
  lastName : Option String
  username : Option String
  isEmailVerified : Bool
  createdAt : Nat
deriving Repr, DecidableEq

/-- Outcome of the register handler. -/
inductive RegisterOut
  | err (e : ErrResponse)
  | created (user : RegisteredUser)
deriving Repr, DecidableEq

/-- The register handler: duplicate-email check on the normalized email,
optional duplicate-username check, then user creation with the hashed
password, an EmailVerification row valid 24 hours, and the audit log entry
tagged REGISTRATION_PENDING_VERIFICATION. -/
def register (db : DB) (email password : String)
    (firstName lastName username : Option String)
    (ip ua : String) (now : Nat) : RegisterOut × DB :=
  match findUserByEmail db email with
  | some _ =>
      (RegisterOut.err
        { status := 409, message := "User already exists with this email",
          code := ErrorCode.AUTH_USER_EXISTS, timestamp := now }, db)
  | none =>
      let usernameTaken : Bool :=
        match username with
        | some un => (db.users.find? (fun u => u.username == some un)).isSome
        | none => false
      if usernameTaken then
        (RegisterOut.err
          { status := 409, message := "Username already taken",
            code := ErrorCode.AUTH_USERNAME_TAKEN, timestamp := now }, db)
      else
        let uid := genUserId db.nextId
        let newUser : UserRow :=
          { id := uid, email := toLowerStr email, password := bcryptHash password,
            firstName := firstName, lastName := lastName, username := username,
            createdAt := now }
        let db1 : DB := { db with users := db.users ++ [newUser], nextId := db.nextId + 1 }
        let newVerif : EmailVerificationRow :=
          { id := db1.nextId, userId := uid, token := genVerifToken db1.nextId,
            email := newUser.email, expiresAt := now + 86400 }
        let db2 : DB :=
          { db1 with
            emailVerifications := db1.emailVerifications ++ [newVerif],
            nextId := db1.nextId + 1 }
        let db3 := logLoginAttempt db2 (some uid) ip ua false (some "REGISTRATION_PENDING_VERIFICATION")
        (RegisterOut.created
          { id := uid, email := newUser.email, firstName := firstName,
            lastName := lastName, username := username, isEmailVerified := false,
            createdAt := now }, db3)

/-- Public projection returned by login (built from the row read before the
lastLoginAt update, as in the source). -/
structure UserResponse where
  id : String
  email : String
  firstName : Option String
  lastName : Option String
  username : Option String
  avatar : Option String
  role : String
  isEmailVerified : Bool
  lastLoginAt : Option Nat
deriving Repr, DecidableEq

/-- Outcome of the login handler. -/
inductive LoginOut
  | err (e : ErrResponse)
  | ok (user : UserResponse) (tokens : TokenPair)
deriving Repr, DecidableEq

/-- The login handler: lookup by normalized email, deactivation check,
password check, then lastLoginAt update, token-pair creation, persistence
of the refresh token for 7 days, and the audit log entry. Each failure
branch appends its own audit entry and returns the response literal of the
corresponding call site. -/
def login (db : DB) (email password ip ua : String) (env : Env) (now : Nat) :
    LoginOut × DB :=
  match findUserByEmail db email with
  | none =>
      let db1 := logLoginAttempt db none ip ua false (some "USER_NOT_FOUND")
      (LoginOut.err
        { status := 401, message := "Invalid credentials",
          code := ErrorCode.AUTH_INVALID_CREDENTIALS, timestamp := now }, db1)
  | some u =>
      if u.isActive = false then
        let db1 := logLoginAttempt db (some u.id) ip ua false (some "ACCOUNT_DEACTIVATED")
        (LoginOut.err
          { status := 403, message := "Account is deactivated",
            code := ErrorCode.AUTH_ACCOUNT_DEACTIVATED, timestamp := now }, db1)
      else if bcryptCompare password u.password = false then
        let db1 := logLoginAttempt db (some u.id) ip ua false (some "INVALID_PASSWORD")
        (LoginOut.err
          { status := 401, message := "Invalid credentials",
            code := ErrorCode.AUTH_INVALID_CREDENTIALS, timestamp := now }, db1)
      else
        let users1 := db.users.map
          (fun v => if v.id = u.id then { v with lastLoginAt := some now } else v)
        let db1 : DB := { db with users := users1 }
        let pair := generateTokens u.id env now
        let db2 : DB :=
          { db1 with
            refreshTokens := db1.refreshTokens ++
              [{ id := db1.nextId, userId := u.id, token := pair.refreshToken,
                 expiresAt := now + 604800 }],
            nextId := db1.nextId + 1 }
        let db3 := logLoginAttempt db2 (some u.id) ip ua true none
        (LoginOut.ok
          { id := u.id, email := u.email, firstName := u.firstName,
            lastName := u.lastName, username := u.username, avatar := u.avatar,
            role := u.role, isEmailVerified := u.isEmailVerified,
            lastLoginAt := u.lastLoginAt } pair, db3)

/-- Outcome of the refreshToken handler. -/
inductive RefreshOut
  | err (e : ErrResponse)
  | ok (tokens : TokenPair)
deriving Repr, DecidableEq

/-- Whether a refresh outcome is the success response. -/
def RefreshOut.isOk : RefreshOut → Bool
  | RefreshOut.err _ => false
  | RefreshOut.ok _ => true

/-- The refreshToken handler: raw jwt.verify against the refresh secret
(any library error becomes one 401), row lookup by exact token string, the
combined absent-or-revoked-or-expired rejection, then rotation: the found
row is marked revoked and a fresh pair is issued with a new 7-day row for
the userId decoded from the presented JWT. -/
def refreshToken (db : DB) (t : Jwt) (env : Env) (now : Nat) : RefreshOut × DB :=
  match jwtVerify t env.jwtRefreshSecret now with
  | Except.error _ =>
      (RefreshOut.err
        { status := 401, message := "Invalid refresh token",
          code := ErrorCode.AUTH_TOKEN_EXPIRED, timestamp := now }, db)
  | Except.ok decoded =>
      match db.refreshTokens.find? (fun r => r.token == t) with
      | none =>
          (RefreshOut.err
            { status := 401, message := "Invalid or expired refresh token",
              code := ErrorCode.AUTH_TOKEN_EXPIRED, timestamp := now }, db)
      | some row =>
          if row.isRevoked = true ∨ row.expiresAt < now then
            (RefreshOut.err
              { status := 401, message := "Invalid or expired refresh token",
                code := ErrorCode.AUTH_TOKEN_EXPIRED, timestamp := now }, db)
          else
            let pair := generateTokens decoded.userId env now
            let rts1 := db.refreshTokens.map
              (fun r => if r.id = row.id then { r with isRevoked := true } else r)
            let db1 : DB := { db with refreshTokens := rts1 }
            let db2 : DB :=
              { db1 with
                refreshTokens := db1.refreshTokens ++
                  [{ id := db1.nextId, userId := decoded.userId, token := pair.refreshToken,
                     expiresAt := now + 604800 }],
                nextId := db1.nextId + 1 }
            (RefreshOut.ok pair, db2)

/-- Outcome of the logout handler: the handler has a single non-error
response. -/
inductive LogoutOut
  | ok
deriving Repr, DecidableEq

/-- The logout handler: when a token is provided, updateMany marks every
row with that token string revoked; the success response is returned in
every case. -/
def logout (db : DB) (t : Option Jwt) : LogoutOut × DB :=
  match t with
  | none => (LogoutOut.ok, db)
  | some jt =>
      let rts1 := db.refreshTokens.map
        (fun r => if r.token == jt then { r with isRevoked := true } else r)
      (LogoutOut.ok, { db with refreshTokens := rts1 })

/-- Outcome of the verifyEmail handler. -/
inductive VerifyEmailOut
  | err (e : ErrResponse)
  | alreadyVerified
  | verified
deriving Repr, DecidableEq

/-- The verifyEmail handler: lookup by token, expiry check, the idempotent
already-verified branch, then the two updates (user flag and row status). -/
def verifyEmail (db : DB) (tok : String) (now : Nat) : VerifyEmailOut × DB :=
  match db.emailVerifications.find? (fun r => r.token == tok) with
  | none =>
      (VerifyEmailOut.err
        { status := 400, message := "Invalid verification token",
          code := ErrorCode.AUTH_INVALID_TOKEN, timestamp := now }, db)
  | some v =>
      if v.expiresAt < now then
        (VerifyEmailOut.err
          { status := 400, message := "Verification token has expired",
            code := ErrorCode.AUTH_TOKEN_EXPIRED, timestamp := now }, db)
      else if v.status = VerifStatus.VERIFIED then
        (VerifyEmailOut.alreadyVerified, db)
      else
        let users1 := db.users.map
          (fun u => if u.id = v.userId then { u with isEmailVerified := true } else u)
        let db1 : DB := { db with users := users1 }
        let evs1 := db1.emailVerifications.map
          (fun r => if r.id = v.id then { r with status := VerifStatus.VERIFIED } else r)
        let db2 : DB := { db1 with emailVerifications := evs1 }
        (VerifyEmailOut.verified, db2)

/-- Outcome of the changePassword handler. -/
inductive ChangePwOut
  | err (e : ErrResponse)
  | ok
deriving Repr, DecidableEq

/-- The changePassword handler: lookup of the authenticated user by id,
current-password check, then the password update and the updateMany that
revokes every RefreshToken row of that user. -/
def changePassword (db : DB) (userId currentPassword newPassword : String) (now : Nat) :
    ChangePwOut × DB :=
  match db.users.find? (fun u => u.id == userId) with
  | none =>
      (ChangePwOut.err
        { status := 404, message := "User not found",
          code := ErrorCode.AUTH_USER_NOT_FOUND, timestamp := now }, db)
  | some u =>
      if bcryptCompare currentPassword u.password = false then
        (ChangePwOut.err
          { status := 400, message := "Current password is incorrect",
            code := ErrorCode.AUTH_INVALID_PASSWORD, timestamp := now }, db)
      else
        let users1 := db.users.map
          (fun v => if v.id = userId then { v with password := bcryptHash newPassword } else v)
        let db1 : DB := { db with users := users1 }
        let rts1 := db1.refreshTokens.map
          (fun r => if r.userId = userId then { r with isRevoked := true } else r)
        let db2 : DB := { db1 with refreshTokens := rts1 }
        (ChangePwOut.ok, db2)

/-! Concrete states used to instantiate the theorems on explicit inputs. -/

/-- A concrete environment. -/
def envW : Env := { jwtSecret := "as", jwtRefreshSecret := "rs" }

/-- A concrete registered, active user whose password is pw. -/
def userW : UserRow := { id := "u1", email := "a@x.com", password := bcryptHash "pw" }

/-- A concrete store holding only userW. -/
def dbW : DB := { users := [userW], nextId := 1 }

/-- A concrete store holding userW and one stored, unrevoked refresh token
issued at time 100 (as the login handler would persist it). -/
def rtW : RefreshTokenRow :=
  { id := 1, userId := "u1", token := jwtSign { userId := "u1" } "rs" 100 none,
    expiresAt := 604900 }

def dbW2 : DB := { users := [userW], refreshTokens := [rtW], nextId := 2 }

/-- A concrete store holding userW and one pending email verification valid
until time 1000. -/
def evW : EmailVerificationRow :=
  { id := 1, userId := "u1", token := "vtok_1", email := "a@x.com", expiresAt := 1000 }

def dbW3 : DB := { users := [userW], emailVerifications := [evW], nextId := 2 }

/-! List helper lemmas shared by the proofs. -/

/-- find? commutes with a map that is invisible to the predicate. -/
theorem find?_map_of_pres {α : Type} (l : List α) (f : α → α) (p : α → Bool)
    (hf : ∀ a, p (f a) = p a) : (l.map f).find? p = (l.find? p).map f := by
  induction l with
  | nil => rfl
  | cons a t ih =>
      rw [List.map_cons]
      by_cases h : p a = true
      · rw [List.find?_cons_of_pos _ (by rw [hf]; exact h), List.find?_cons_of_pos _ h]
        rfl
      · have h0 : ¬ p (f a) = true := by rw [hf]; exact h
        rw [List.find?_cons_of_neg _ h0, List.find?_cons_of_neg _ h, ih]

/-- A map that is invisible to the predicate and fixes every element the
predicate accepts leaves find? untouched. -/
theorem find?_map_of_pres_eq {α : Type} (l : List α) (f : α → α) (p : α → Bool)
    (hf : ∀ a, p (f a) = p a) (hfix : ∀ a, p a = true → f a = a) :
    (l.map f).find? p = l.find? p := by
  rw [find?_map_of_pres l f p hf]
  cases h : l.find? p with
  | none => rfl
  | some a => simp [hfix a (List.find?_some h)]

/-! Claim theorems. -/

/-- C2, counterexample: a token issued for email verification (signed with
the access secret, purpose claim email_verify) is accepted when presented
as an access token: verifyAccessToken returns its claims although the
purpose is not access, contradicting the claim that such a token is
rejected for any other purpose including the access purpose. -/
theorem purpose_token_accepted_as_access_cex :
    verifyAccessToken (generateEmailVerifyToken "u1" "a@x.com" envW 0) envW 600 =
      Except.ok { userId := "u1", email := some "a@x.com", typ := some "email_verify" } := by
  rfl

/-- C2, amended: for a token whose signature and expiry are valid against
the access secret, the purpose-scoped verifiers (verifyEmailVerifyToken,
verifyPasswordResetToken) fail with their distinct verification-failed
error whenever the purpose claim does not match; verifyAccessToken,
however, performs no purpose check and accepts the token whatever its
purpose claim. -/
theorem purpose_check_amended (t : Jwt) (env : Env) (now : Nat) (c : Claims)
    (h : jwtVerify t env.jwtSecret now = Except.ok c) :
    (c.typ ≠ some "email_verify" →
      verifyEmailVerifyToken t env now = Except.error SvcError.emailVerifyVerificationFailed) ∧
    (c.typ ≠ some "password_reset" →
      verifyPasswordResetToken t env now = Except.error SvcError.pwResetVerificationFailed) ∧
    verifyAccessToken t env now = Except.ok c := by
  refine ⟨?_, ?_, ?_⟩
  · intro hne
    simp [verifyEmailVerifyToken, h, hne]
  · intro hne
    simp [verifyPasswordResetToken, h, hne]
  · simp [verifyAccessToken, h]

/-- Witness for C2 amended: the concrete email-verify token of the
counterexample, presented to the password-reset verifier, fails with the
verification-failed error. -/
theorem purpose_check_amended_witness :
    verifyPasswordResetToken (generateEmailVerifyToken "u1" "a@x.com" envW 0) envW 600 =
      Except.error SvcError.pwResetVerificationFailed :=
  (purpose_check_amended (generateEmailVerifyToken "u1" "a@x.com" envW 0) envW 600
    { userId := "u1", email := some "a@x.com", typ := some "email_verify" }
    (by rfl)).2.1 (by decide)

/-- C3 (evaluation of the code at the failing input): the generateTokens
helper of the controller signs the login access token without any expiresIn
option, so the access token of the pair issued on a successful login
carries no exp claim, and verifying it with the access secret at time
1000000, far beyond the configured 900-second default lifetime, still
succeeds instead of failing with an expired-token error. -/
theorem login_access_token_never_expires :
    (login dbW "a@x.com" "pw" "ip" "ua" envW 0).1 =
      LoginOut.ok
        { id := "u1", email := "a@x.com", firstName := none, lastName := none,
          username := none, avatar := none, role := "USER", isEmailVerified := false,
          lastLoginAt := none }
        (generateTokens "u1" envW 0) ∧
    (generateTokens "u1" envW 0).accessToken.exp = none ∧
    envW.jwtExpiresInSec = 900 ∧
    verifyAccessToken (generateTokens "u1" envW 0).accessToken envW 1000000 =
      Except.ok { userId := "u1" } := by
  refine ⟨?_, rfl, rfl, rfl⟩
  decide

/-- C4: a login with an email matching no user and a login with an email
matching a user but a wrong password produce the same caller-visible
response: the same 401 status, the same message and machine code, byte for
byte, so the caller cannot distinguish the two cases. -/
theorem login_indistinguishable_errors (db : DB) (email1 email2 pw1 pw2 ip ua : String)
    (env : Env) (now : Nat) (u : UserRow)
    (h1 : findUserByEmail db email1 = none)
    (h2 : findUserByEmail db email2 = some u)
    (hact : u.isActive = true)
    (hpw : bcryptCompare pw2 u.password = false) :
    (login db email1 pw1 ip ua env now).1 =
      LoginOut.err
        { status := 401, message := "Invalid credentials",
          code := ErrorCode.AUTH_INVALID_CREDENTIALS, timestamp := now } ∧
    (login db email2 pw2 ip ua env now).1 = (login db email1 pw1 ip ua env now).1 := by
  constructor
  · simp [login, h1]
  · simp [login, h1, h2, hact, hpw]

/-- Witness for C4 on the concrete store: unknown email b@x.com versus the
stored user a@x.com with a wrong password. -/
theorem login_indistinguishable_errors_witness :
    (login dbW "b@x.com" "pw" "ip" "ua" envW 7).1 =
      LoginOut.err
        { status := 401, message := "Invalid credentials",
          code := ErrorCode.AUTH_INVALID_CREDENTIALS, timestamp := 7 } ∧
    (login dbW "a@x.com" "wrong" "ip" "ua" envW 7).1 = (login dbW "b@x.com" "pw" "ip" "ua" envW 7).1 :=
  login_indistinguishable_errors dbW "b@x.com" "a@x.com" "pw" "wrong" "ip" "ua" envW 7 userW
    (by decide) (by decide) (by decide) (by decide)

/-- C5: when some stored user already has the normalized form of the
requested email, register answers the 409 conflict response with the
user-exists code and returns the store unchanged, so no second User row is
created for that normalized email. -/
theorem register_conflict_on_existing_email (db : DB) (email password : String)
    (firstName lastName username : Option String) (ip ua : String) (now : Nat)
    (h : ∃ u ∈ db.users, u.email = toLowerStr email) :
    register db email password firstName lastName username ip ua now =
      (RegisterOut.err
        { status := 409, message := "User already exists with this email",
          code := ErrorCode.AUTH_USER_EXISTS, timestamp := now }, db) := by
  obtain ⟨u, hu, he⟩ := h
  have hs : (findUserByEmail db email).isSome := by
    apply List.find?_isSome.mpr
    exact ⟨u, hu, by simp [he]⟩
  obtain ⟨w, hw⟩ := Option.isSome_iff_exists.mp hs
  unfold register
  rw [hw]

/-- Witness for C5: registering A@X.com against the store already holding
a@x.com yields the conflict and leaves the store untouched. -/
theorem register_conflict_on_existing_email_witness :
    register dbW "A@X.com" "pw2" none none none "ip" "ua" 5 =
      (RegisterOut.err
        { status := 409, message := "User already exists with this email",
          code := ErrorCode.AUTH_USER_EXISTS, timestamp := 5 }, dbW) :=
  register_conflict_on_existing_email dbW "A@X.com" "pw2" none none none "ip" "ua" 5
    ⟨userW, by decide, by decide⟩

/-- C10: the expiry check of verifyEmail precedes the already-verified
branch, so a stored verification token whose expiration timestamp is in
the past is rejected with the token-expired response even when its status
is already VERIFIED, and the store is unchanged. -/
theorem verifyEmail_expiry_precedes_idempotence (db : DB) (tok : String) (now : Nat)
    (v : EmailVerificationRow)
    (hfind : db.emailVerifications.find? (fun r => r.token == tok) = some v)
    (hexp : v.expiresAt < now)
    (_hstatus : v.status = VerifStatus.VERIFIED) :
    verifyEmail db tok now =
      (VerifyEmailOut.err
        { status := 400, message := "Verification token has expired",
          code := ErrorCode.AUTH_TOKEN_EXPIRED, timestamp := now }, db) := by
  unfold verifyEmail
  rw [hfind]
  simp [hexp]

/-- Witness for C10: the pending row of the concrete store, first verified
at time 500, then presented again at time 2000, past its expiry 1000. -/
theorem verifyEmail_expiry_precedes_idempotence_witness :
    verifyEmail ((verifyEmail dbW3 "vtok_1" 500).2) "vtok_1" 2000 =
      (VerifyEmailOut.err
        { status := 400, message := "Verification token has expired",
          code := ErrorCode.AUTH_TOKEN_EXPIRED, timestamp := 2000 },
       (verifyEmail dbW3 "vtok_1" 500).2) :=
  verifyEmail_expiry_precedes_idempotence ((verifyEmail dbW3 "vtok_1" 500).2) "vtok_1" 2000
    { evW with status := VerifStatus.VERIFIED } (by decide) (by decide) (by decide)

/-- C8: logout always answers the success response; with a token it marks
every stored row carrying that token string revoked; repeating the call
leaves the store exactly as after the first call, and a call without a
token changes nothing. -/
theorem logout_idempotent_always_ok (db : DB) (t : Option Jwt) (jt : Jwt) :
    (logout db t).1 = LogoutOut.ok ∧
    (logout (logout db t).2 t).2 = (logout db t).2 ∧
    (∀ r ∈ ((logout db (some jt)).2).refreshTokens, r.token = jt → r.isRevoked = true) ∧
    (logout db none).2 = db := by
  refine ⟨?_, ?_, ?_, rfl⟩
  · cases t <;> rfl
  · cases t with
    | none => rfl
    | some jt0 =>
        simp only [logout]
        congr 1
        rw [List.map_map]
        apply List.map_congr_left
        intro r _
        by_cases h : r.token == jt0
        · simp [Function.comp, h]
        · simp [Function.comp, h]
  · intro r hr htok
    simp only [logout] at hr
    obtain ⟨r0, hr0, rfl⟩ := List.mem_map.mp hr
    by_cases h : r0.token == jt
    · simp [h]
    · rw [if_neg h] at htok
      rw [if_neg h]
      simp [htok] at h

/-- Witness for C8: double logout of the stored token of the concrete
store, instantiating the revocation conjunct on that token. -/
theorem logout_idempotent_always_ok_witness :
    (logout (logout dbW2 (some rtW.token)).2 (some rtW.token)).2 =
      (logout dbW2 (some rtW.token)).2 ∧
    ∀ r ∈ ((logout dbW2 (some rtW.token)).2).refreshTokens, r.token = rtW.token →
      r.isRevoked = true :=
  ⟨(logout_idempotent_always_ok dbW2 (some rtW.token) rtW.token).2.1,
   (logout_idempotent_always_ok dbW2 (some rtW.token) rtW.token).2.2.1⟩

/-- Counting helper for C7: switching the rows carrying one given id (a
single row, as ids are distinct) from PENDING to VERIFIED raises the number
of VERIFIED rows by exactly one. -/
theorem countVerified_map_set (l : List EmailVerificationRow) (v : EmailVerificationRow)
    (hv : v ∈ l) (hvp : v.status = VerifStatus.PENDING)
    (hnodup : (l.map (fun r => r.id)).Nodup) :
    ((l.map (fun r => if r.id = v.id then { r with status := VerifStatus.VERIFIED } else r)).filter
        (fun r => r.status == VerifStatus.VERIFIED)).length =
      (l.filter (fun r => r.status == VerifStatus.VERIFIED)).length + 1 := by
  induction l with
  | nil => cases hv
  | cons a t ih =>
      rw [List.map_cons, List.nodup_cons] at hnodup
      obtain ⟨ha, ht⟩ := hnodup
      rcases List.mem_cons.mp hv with rfl | hvt
      · have hmap : t.map (fun r => if r.id = v.id then { r with status := VerifStatus.VERIFIED } else r) = t := by
          have hpt : ∀ r ∈ t, (if r.id = v.id then { r with status := VerifStatus.VERIFIED } else r) = r := by
            intro r hr
            rw [if_neg]
            intro hmm
            exact ha (hmm ▸ List.mem_map_of_mem (fun r => r.id) hr)
          rw [List.map_congr_left hpt]
          exact List.map_id t
        rw [List.map_cons, if_pos rfl, hmap, List.filter_cons, List.filter_cons]
        simp [hvp]
      · have hne : ¬ a.id = v.id := by
          intro hmm
          exact ha (hmm ▸ List.mem_map_of_mem (fun r => r.id) hvt)
        rw [List.map_cons, if_neg hne, List.filter_cons, List.filter_cons]
        by_cases hpa : a.status == VerifStatus.VERIFIED
        · rw [if_pos hpa, if_pos hpa]
          simp only [List.length_cons]
          rw [ih hvt ht]
        · rw [if_neg hpa, if_neg hpa]
          exact ih hvt ht

/-- C7: on a stored, unexpired, pending verification token, the first
verifyEmail call answers the verified success, flags the matching user as
email-verified and transitions exactly one EmailVerification row to
VERIFIED; a second call with the same token, while the row is still
unexpired, answers the already-verified success and returns the store
exactly as the first call left it. -/
theorem verifyEmail_idempotent (db : DB) (tok : String) (now1 now2 : Nat)
    (v : EmailVerificationRow)
    (hfind : db.emailVerifications.find? (fun r => r.token == tok) = some v)
    (hexp1 : ¬ v.expiresAt < now1) (hexp2 : ¬ v.expiresAt < now2)
    (hstatus : v.status = VerifStatus.PENDING)
    (hnodup : (db.emailVerifications.map (fun r => r.id)).Nodup) :
    (verifyEmail db tok now1).1 = VerifyEmailOut.verified ∧
    verifyEmail ((verifyEmail db tok now1).2) tok now2 =
      (VerifyEmailOut.alreadyVerified, (verifyEmail db tok now1).2) ∧
    (∀ u ∈ ((verifyEmail db tok now1).2).users, u.id = v.userId → u.isEmailVerified = true) ∧
    ((((verifyEmail db tok now1).2).emailVerifications.filter
        (fun r => r.status == VerifStatus.VERIFIED)).length =
      (db.emailVerifications.filter (fun r => r.status == VerifStatus.VERIFIED)).length + 1) := by
  have hnv : ¬ v.status = VerifStatus.VERIFIED := by
    rw [hstatus]
    intro hcon
    cases hcon
  have hstep : verifyEmail db tok now1 =
      (VerifyEmailOut.verified,
        { db with
            users := db.users.map
              (fun u => if u.id = v.userId then { u with isEmailVerified := true } else u),
            emailVerifications := db.emailVerifications.map
              (fun r => if r.id = v.id then { r with status := VerifStatus.VERIFIED } else r) }) := by
    simp [verifyEmail, hfind, hexp1, hnv]
  rw [hstep]
  refine ⟨rfl, ?_, ?_, ?_⟩
  · have hfind2 :
        (db.emailVerifications.map
            (fun r => if r.id = v.id then { r with status := VerifStatus.VERIFIED } else r)).find?
          (fun r => r.token == tok) = some { v with status := VerifStatus.VERIFIED } := by
      rw [find?_map_of_pres _ _ _ ?pres, hfind]
      case pres =>
        intro a
        by_cases h : a.id = v.id
        · rw [if_pos h]
        · rw [if_neg h]
      rw [Option.map_some']
      rw [if_pos rfl]
    simp [verifyEmail, hfind2, hexp2]
  · intro u hu hid
    have hu2 : u ∈ db.users.map
        (fun w => if w.id = v.userId then { w with isEmailVerified := true } else w) := hu
    obtain ⟨u0, hu0, rfl⟩ := List.mem_map.mp hu2
    by_cases h : u0.id = v.userId
    · rw [if_pos h]
    · rw [if_neg h] at hid ⊢
      exact absurd hid h
  · exact countVerified_map_set db.emailVerifications v
      (List.mem_of_find?_eq_some hfind) hstatus hnodup

/-- Witness for C7 on the concrete store: the pending row verified at time
500 and re-presented at time 600, both before the expiry 1000. -/
theorem verifyEmail_idempotent_witness :
    (verifyEmail dbW3 "vtok_1" 500).1 = VerifyEmailOut.verified ∧
    verifyEmail ((verifyEmail dbW3 "vtok_1" 500).2) "vtok_1" 600 =
      (VerifyEmailOut.alreadyVerified, (verifyEmail dbW3 "vtok_1" 500).2) :=
  ⟨(verifyEmail_idempotent dbW3 "vtok_1" 500 600 evW (by decide) (by decide) (by decide)
      (by decide) (by decide)).1,
   (verifyEmail_idempotent dbW3 "vtok_1" 500 600 evW (by decide) (by decide) (by decide)
      (by decide) (by decide)).2.1⟩

/-- C9: once login resolves a user for the email, exactly one LoginLog row
is appended, with the success flag and failure reason of the taken branch
(ACCOUNT_DEACTIVATED, INVALID_PASSWORD, or a success row without reason);
when no user matches the email, no row is appended; and three consecutive
wrong-password logins against an existing active user append exactly three
failure rows. -/
theorem login_audit_logging (db : DB) (email pw ip ua : String) (env : Env)
    (now1 now2 now3 : Nat) :
    (findUserByEmail db email = none →
      ((login db email pw ip ua env now1).2).loginLogs = db.loginLogs) ∧
    (∀ u, findUserByEmail db email = some u →
      (u.isActive = false →
        ((login db email pw ip ua env now1).2).loginLogs = db.loginLogs ++
          [{ userId := u.id, ipAddress := ip, userAgent := ua, isSuccess := false,
             failReason := some "ACCOUNT_DEACTIVATED" }]) ∧
      (u.isActive = true → bcryptCompare pw u.password = false →
        ((login db email pw ip ua env now1).2).loginLogs = db.loginLogs ++
          [{ userId := u.id, ipAddress := ip, userAgent := ua, isSuccess := false,
             failReason := some "INVALID_PASSWORD" }]) ∧
      (u.isActive = true → bcryptCompare pw u.password = true →
        ((login db email pw ip ua env now1).2).loginLogs = db.loginLogs ++
          [{ userId := u.id, ipAddress := ip, userAgent := ua, isSuccess := true,
             failReason := none }]) ∧
      (u.isActive = true → bcryptCompare pw u.password = false →
        ((login ((login ((login db email pw ip ua env now1).2) email pw ip ua env now2).2)
            email pw ip ua env now3).2).loginLogs = db.loginLogs ++
          [{ userId := u.id, ipAddress := ip, userAgent := ua, isSuccess := false,
             failReason := some "INVALID_PASSWORD" },
           { userId := u.id, ipAddress := ip, userAgent := ua, isSuccess := false,
             failReason := some "INVALID_PASSWORD" },
           { userId := u.id, ipAddress := ip, userAgent := ua, isSuccess := false,
             failReason := some "INVALID_PASSWORD" }])) := by
  constructor
  · intro h
    simp [login, h, logLoginAttempt]
  · intro u hu
    refine ⟨?_, ?_, ?_, ?_⟩
    · intro hact
      simp [login, hu, hact, logLoginAttempt]
    · intro hact hpw
      simp [login, hu, hact, hpw, logLoginAttempt]
    · intro hact hpw
      simp [login, hu, hact, hpw, logLoginAttempt]
    · intro hact hpw
      have hu2 : db.users.find? (fun w => w.email == toLowerStr email) = some u := hu
      simp [login, findUserByEmail, logLoginAttempt, hu2, hact, hpw]

/-- Witness for C9: three wrong-password logins against the concrete stored
user append exactly three failed INVALID_PASSWORD rows. -/
theorem login_audit_logging_witness :
    ((login ((login ((login dbW "a@x.com" "wrong" "ip" "ua" envW 1).2)
        "a@x.com" "wrong" "ip" "ua" envW 2).2) "a@x.com" "wrong" "ip" "ua" envW 3).2).loginLogs =
      [{ userId := "u1", ipAddress := "ip", userAgent := "ua", isSuccess := false,
         failReason := some "INVALID_PASSWORD" },
       { userId := "u1", ipAddress := "ip", userAgent := "ua", isSuccess := false,
         failReason := some "INVALID_PASSWORD" },
       { userId := "u1", ipAddress := "ip", userAgent := "ua", isSuccess := false,
         failReason := some "INVALID_PASSWORD" }] := by
  have h := ((login_audit_logging dbW "a@x.com" "wrong" "ip" "ua" envW 1 2 3).2 userW
    (by decide)).2.2.2 (by decide) (by decide)
  simpa [dbW, userW] using h

/-- C6: when changePassword succeeds (the user is found and the current
password matches), every RefreshToken row of that user in the resulting
store is revoked, and a refresh attempt with any token whose stored row
belonged to that user subsequently fails. -/
theorem changePassword_revokes_all_sessions (db : DB) (uid cur newPw : String) (now : Nat)
    (env : Env) (now2 : Nat) (t : Jwt) (row : RefreshTokenRow) (u : UserRow)
    (hfu : db.users.find? (fun w => w.id == uid) = some u)
    (hcmp : bcryptCompare cur u.password = true) :
    (changePassword db uid cur newPw now).1 = ChangePwOut.ok ∧
    (∀ r ∈ ((changePassword db uid cur newPw now).2).refreshTokens,
      r.userId = uid → r.isRevoked = true) ∧
    (db.refreshTokens.find? (fun r => r.token == t) = some row → row.userId = uid →
      ((refreshToken ((changePassword db uid cur newPw now).2) t env now2).1).isOk = false) := by
  have hstep : changePassword db uid cur newPw now =
      (ChangePwOut.ok,
        { db with
            users := db.users.map
              (fun v => if v.id = uid then { v with password := bcryptHash newPw } else v),
            refreshTokens := db.refreshTokens.map
              (fun r => if r.userId = uid then { r with isRevoked := true } else r) }) := by
    simp [changePassword, hfu, hcmp]
  rw [hstep]
  refine ⟨rfl, ?_, ?_⟩
  · intro r hr hrid
    have hr2 : r ∈ db.refreshTokens.map
        (fun w => if w.userId = uid then { w with isRevoked := true } else w) := hr
    obtain ⟨r0, hr0, rfl⟩ := List.mem_map.mp hr2
    by_cases h : r0.userId = uid
    · rw [if_pos h]
    · rw [if_neg h] at hrid ⊢
      exact absurd hrid h
  · intro hfr hrid
    cases hjv : jwtVerify t env.jwtRefreshSecret now2 with
    | error e => simp [refreshToken, hjv, RefreshOut.isOk]
    | ok c =>
        have hfind1 : (db.refreshTokens.map
            (fun w => if w.userId = uid then { w with isRevoked := true } else w)).find?
              (fun r => r.token == t) =
            some { row with isRevoked := true } := by
          rw [find?_map_of_pres _ _ _ ?pres, hfr, Option.map_some']
          case pres =>
            intro a
            by_cases h : a.userId = uid
            · rw [if_pos h]
            · rw [if_neg h]
          rw [if_pos hrid]
        simp [refreshToken, hjv, hfind1, RefreshOut.isOk]

/-- Witness for C6: after the concrete user changes password, a refresh
attempt with the previously stored token fails. -/
theorem changePassword_revokes_all_sessions_witness :
    ((refreshToken ((changePassword dbW2 "u1" "pw" "npw" 400).2) rtW.token envW 500).1).isOk =
      false :=
  (changePassword_revokes_all_sessions dbW2 "u1" "pw" "npw" 400 envW 500 rtW.token rtW userW
    (by decide) (by decide)).2.2 (by decide) (by decide)

/-- C1: a refresh token redeemed once through a successful refresh call is
left stored as a revoked row, so replaying the same token string fails with
the 401 invalid-token response, while the refresh token issued by that
first call succeeds when presented before its expiry. The success of the
first call is characterized by its branch conditions: the JWT verifies
against the refresh secret, and its row is stored, unrevoked and unexpired;
the freshness hypothesis states that the newly signed token string does not
collide with a stored one, which holds whenever the redeemed token was not
signed at the very instant of the redemption. -/
theorem refresh_single_use (db : DB) (t : Jwt) (env : Env) (now1 now2 : Nat)
    (c : Claims) (row : RefreshTokenRow)
    (hjv : jwtVerify t env.jwtRefreshSecret now1 = Except.ok c)
    (ht : t.exp = none)
    (hfr : db.refreshTokens.find? (fun r => r.token == t) = some row)
    (hrv : row.isRevoked = false)
    (hre : ¬ row.expiresAt < now1)
    (hfresh : ∀ r ∈ db.refreshTokens, r.token ≠ (generateTokens c.userId env now1).refreshToken)
    (hnow2 : ¬ now1 + 604800 < now2) :
    (refreshToken db t env now1).1 = RefreshOut.ok (generateTokens c.userId env now1) ∧
    (∃ row1, ((refreshToken db t env now1).2).refreshTokens.find? (fun r => r.token == t) =
        some row1 ∧ row1.isRevoked = true) ∧
    (refreshToken ((refreshToken db t env now1).2) t env now2).1 =
      RefreshOut.err
        { status := 401, message := "Invalid or expired refresh token",
          code := ErrorCode.AUTH_TOKEN_EXPIRED, timestamp := now2 } ∧
    ((refreshToken ((refreshToken db t env now1).2)
        (generateTokens c.userId env now1).refreshToken env now2).1).isOk = true := by
  have hcond : ¬ (row.isRevoked = true ∨ row.expiresAt < now1) := by
    rw [hrv]
    simp [hre]
  have hstep : refreshToken db t env now1 =
      (RefreshOut.ok (generateTokens c.userId env now1),
        { db with
            refreshTokens := (db.refreshTokens.map
                (fun r => if r.id = row.id then { r with isRevoked := true } else r)) ++
              [{ id := db.nextId, userId := c.userId,
                 token := (generateTokens c.userId env now1).refreshToken,
                 expiresAt := now1 + 604800 }],
            nextId := db.nextId + 1 }) := by
    simp [refreshToken, hjv, hfr, hcond]
  have hsec : t.secret = env.jwtRefreshSecret := by
    by_contra hne
    simp [jwtVerify, hne] at hjv
  have hpres : ∀ a : RefreshTokenRow,
      ((if a.id = row.id then { a with isRevoked := true } else a).token == t) =
        (a.token == t) := by
    intro a
    by_cases h : a.id = row.id
    · rw [if_pos h]
    · rw [if_neg h]
  have hfind2 : ((db.refreshTokens.map
        (fun r : RefreshTokenRow => if r.id = row.id then { r with isRevoked := true } else r)) ++
      [({ id := db.nextId, userId := c.userId,
          token := (generateTokens c.userId env now1).refreshToken,
          expiresAt := now1 + 604800 } : RefreshTokenRow)]).find?
        (fun r => r.token == t) =
      some { row with isRevoked := true } := by
    rw [List.find?_append]
    rw [find?_map_of_pres _ _ _ hpres, hfr, Option.map_some', if_pos rfl, Option.or_some]
  rw [hstep]
  refine ⟨rfl, ⟨{ row with isRevoked := true }, hfind2, rfl⟩, ?_, ?_⟩
  · have hjv2 : jwtVerify t env.jwtRefreshSecret now2 = Except.ok t.claims := by
      simp [jwtVerify, hsec, ht]
    simp [refreshToken, hjv2, hfind2]
  · have hjv3 : jwtVerify (generateTokens c.userId env now1).refreshToken
        env.jwtRefreshSecret now2 = Except.ok { userId := c.userId } := by
      simp [generateTokens, jwtSign, jwtVerify]
    have hpres2 : ∀ a : RefreshTokenRow,
        ((if a.id = row.id then { a with isRevoked := true } else a).token ==
            (generateTokens c.userId env now1).refreshToken) =
          (a.token == (generateTokens c.userId env now1).refreshToken) := by
      intro a
      by_cases h : a.id = row.id
      · rw [if_pos h]
      · rw [if_neg h]
    have hnone : (db.refreshTokens.map
        (fun r : RefreshTokenRow => if r.id = row.id then { r with isRevoked := true } else r)).find?
          (fun r => r.token == (generateTokens c.userId env now1).refreshToken) = none := by
      rw [find?_map_of_pres _ _ _ hpres2]
      rw [List.find?_eq_none.mpr ?hn, Option.map_none']
      case hn =>
        intro x hx
        simp [hfresh x hx]
    have hfind3 : ((db.refreshTokens.map
          (fun r : RefreshTokenRow => if r.id = row.id then { r with isRevoked := true } else r)) ++
        [({ id := db.nextId, userId := c.userId,
            token := (generateTokens c.userId env now1).refreshToken,
            expiresAt := now1 + 604800 } : RefreshTokenRow)]).find?
          (fun r => r.token == (generateTokens c.userId env now1).refreshToken) =
        some ({ id := db.nextId, userId := c.userId,
                token := (generateTokens c.userId env now1).refreshToken,
                expiresAt := now1 + 604800 } : RefreshTokenRow) := by
      rw [List.find?_append, hnone, Option.none_or]
      simp
    simp [refreshToken, hjv3, hfind3, hnow2, RefreshOut.isOk]

/-- Witness for C1 on the concrete store: the stored token issued at time
100 is redeemed at time 200; replaying it at time 300 yields the 401
invalid-token response, and the rotated token succeeds at time 300. -/
theorem refresh_single_use_witness :
    (refreshToken ((refreshToken dbW2 rtW.token envW 200).2) rtW.token envW 300).1 =
      RefreshOut.err
        { status := 401, message := "Invalid or expired refresh token",
          code := ErrorCode.AUTH_TOKEN_EXPIRED, timestamp := 300 } ∧
    ((refreshToken ((refreshToken dbW2 rtW.token envW 200).2)
        (generateTokens "u1" envW 200).refreshToken envW 300).1).isOk = true :=
  ⟨((refresh_single_use dbW2 rtW.token envW 200 300 { userId := "u1" } rtW
      (by rfl) (by rfl) (by decide) (by decide) (by decide) (by decide)
      (by decide)).2.2.1),
   ((refresh_single_use dbW2 rtW.token envW 200 300 { userId := "u1" } rtW
      (by rfl) (by rfl) (by decide) (by decide) (by decide) (by decide)
      (by decide)).2.2.2)⟩

end Arktos
